import Mathlib

/-!
Shallow embedding of the core algorithms of `eazysvn.py` (a command-line
convenience layer over Subversion): the revision-range normalizer `revs`,
the branch/tag URL rewriters `determinebranch`/`determinetag`, the
branch-point finder `branchpoints`, and the relevant slices of the
`merge` and `revert` sub-commands.

The script is Python 2; values flowing out of `revs` are either Python
ints or Python strings, which we model with `PyVal`.  Python string
primitives (`split` on a one-character separator, `in`, `startswith` on a
one-character string, `int()` on a decimal token) are modelled by
executable list-of-characters functions below, so that every definition
evaluates on concrete inputs by `rfl` or `decide`.
-/

set_option autoImplicit false

namespace Eazysvn

/-- Python `s.split(c)` for a one-character separator, on the character
list: splits at every occurrence of `c`, keeping empty chunks, and yields
one chunk even for the empty input (Python: `''.split('-') == ['']`). -/
def splitChunks (c : Char) : List Char → List (List Char)
  | [] => [[]]
  | ch :: rest =>
    if ch = c then [] :: splitChunks c rest
    else
      match splitChunks c rest with
      | [] => [[ch]]
      | g :: gs => (ch :: g) :: gs

/-- Python `s.split(c)` for a one-character separator `c`, as strings. -/
def pySplit (s : String) (c : Char) : List String :=
  (splitChunks c s.toList).map (fun l => String.mk l)

/-- Python `c in s` for a one-character needle. -/
def pyContains (s : String) (c : Char) : Bool :=
  s.toList.contains c

/-- Python `s.startswith(c)` for a one-character string `c`. -/
def pyStartsWith (s : String) (c : Char) : Bool :=
  match s.toList with
  | [] => false
  | x :: _ => x = c

/-- Python `s.endswith(t)`. -/
def pyEndsWith (s t : String) : Bool :=
  t.toList.isSuffixOf s.toList

/-- Python `s.startswith(t)` for a multi-character string `t`. -/
def pyStartsWithStr (s t : String) : Bool :=
  t.toList.isPrefixOf s.toList

/-- Decimal digit accumulator used by `pyInt?`. -/
def decDigits : List Char → Nat → Option Nat
  | [], acc => some acc
  | c :: rest, acc =>
    if c.isDigit then decDigits rest (acc * 10 + (c.toNat - 48)) else none

/-- Python `int(s)` on a canonical decimal token: an optional leading `-`
followed by a nonempty run of digits.  (Python's `int()` also tolerates
surrounding whitespace and a `+` sign; no token handled by this program
uses those.)  `none` is Python's `ValueError`. -/
def pyInt? (s : String) : Option Int :=
  match s.toList with
  | [] => none
  | '-' :: rest =>
    match rest with
    | [] => none
    | _ => (decDigits rest 0).map (fun n => -(n : Int))
  | cs => (decDigits cs 0).map (fun n => (n : Int))

/-- A Python value as produced by `revs`: an int or a str. -/
inductive PyVal where
  | int : Int → PyVal
  | str : String → PyVal
deriving DecidableEq, Repr

/-- Python 2 comparison `a >= v` where `a` is an int and `v` is an int or
a str.  In Python 2 every int compares strictly below every str, so the
result is `false` whenever `v` is a string (this is how `rev >= 'HEAD'`
behaves on line 81 of `eazysvn.py`). -/
def pyIntGe : Int → PyVal → Bool
  | a, PyVal.int b => b ≤ a
  | _, PyVal.str _ => false

/-- Python string formatting `'%s' % v` of an int or str value. -/
def pyStr : PyVal → String
  | PyVal.int n => toString n
  | PyVal.str s => s

/-- Embedding of `revs` (eazysvn.py lines 74-91).  Strips a leading `r`,
then dispatches on whether the token contains `-`, contains `:`, or is a
bare number.  A failed `int()` parse is Python's `ValueError`, modelled
as `Except.error`, as are the explicit `raise ValueError` on line 82 and
the tuple-unpacking error when a split yields more than two parts. -/
def revs (rev0 : String) : Except String (Int × PyVal) :=
  let rev := if pyStartsWith rev0 'r' then rev0.drop 1 else rev0
  if pyContains rev '-' then
    match pySplit rev '-' with
    | [s1, s2] =>
      match pyInt? s1 with
      | none => Except.error ("invalid literal for int: " ++ s1)
      | some a =>
        let b := a - 1
        let endv : Except String PyVal :=
          if s2 = "HEAD" then Except.ok (PyVal.str s2)
          else
            match pyInt? s2 with
            | none => Except.error ("invalid literal for int: " ++ s2)
            | some e => Except.ok (PyVal.int e)
        match endv with
        | Except.error msg => Except.error msg
        | Except.ok ev =>
          if pyIntGe b ev then
            Except.error ("empty range (" ++ toString (b + 1) ++ "-" ++ pyStr ev ++ ")")
          else
            Except.ok (b, ev)
    | _ => Except.error "too many values to unpack"
  else if pyContains rev ':' then
    match pySplit rev ':' with
    | [s1, s2] =>
      match pyInt? s1 with
      | none => Except.error ("invalid literal for int: " ++ s1)
      | some a =>
        if s2 = "HEAD" then Except.ok (a, PyVal.str s2)
        else
          match pyInt? s2 with
          | none => Except.error ("invalid literal for int: " ++ s2)
          | some e => Except.ok (a, PyVal.int e)
    | _ => Except.error "too many values to unpack"
  else
    match pyInt? rev with
    | none => Except.error ("invalid literal for int: " ++ rev)
    | some a => Except.ok (a - 1, PyVal.str rev)

example : revs "43" = Except.ok (42, PyVal.str "43") := rfl
example : revs "r43" = Except.ok (42, PyVal.str "43") := rfl
example : revs "42-21252" = Except.ok (41, PyVal.int 21252) := rfl
example : revs "42-HEAD" = Except.ok (41, PyVal.str "HEAD") := rfl
example : revs "41:21252" = Except.ok (41, PyVal.int 21252) := rfl
example : revs "42:41" = Except.ok (42, PyVal.int 41) := rfl
example : revs "42-41" = Except.error "empty range (42-41)" := rfl

/-- The four pivot segments recognised by `determinebranch`
(eazysvn.py line 241: `ch in ('branch', 'branches', 'tag', 'tags')`). -/
def isMarker (s : String) : Bool :=
  s = "branch" || s = "branches" || s = "tag" || s = "tags"

/-- The tag-flavoured pivot segments (line 247: `ch in ('tag', 'tags')`). -/
def isTagMarker (s : String) : Bool :=
  s = "tag" || s = "tags"

/-- The segment-rewriting loop of `determinebranch` (eazysvn.py lines
239-257).  The source reverses the chunk list and pops from the end,
which walks the segments in original (left-to-right) order; we recurse
over the list in that order.  On seeing a pivot segment the source does a
second `chunks.pop()`; on an empty remainder that raises `IndexError`,
modelled as `none`. -/
def determinebranchLoop (branch : String) (isTag : Bool) : List String → Option (List String)
  | [] => some []
  | ch :: rest =>
    if isMarker ch then
      match rest with
      | [] => none
      | _oldname :: rest2 =>
        (determinebranchLoop branch isTag rest2).map (fun out =>
          if branch = "trunk" then branch :: out
          else if isTag then branch :: out
          else if isTagMarker ch then "branches" :: branch :: out
          else ch :: branch :: out)
    else if ch = "trunk" && branch != "trunk" then
      (determinebranchLoop branch isTag rest).map (fun out =>
        if isTag then branch :: out else "branches" :: branch :: out)
    else
      (determinebranchLoop branch isTag rest).map (fun out => ch :: out)

/-- Segment-level `determinebranch`: the loop applied with
`is_tag = '/' in branch` (eazysvn.py line 237). -/
def determinebranchSegs (branch : String) (chunks : List String) : Option (List String) :=
  determinebranchLoop branch (pyContains branch '/') chunks

/-- URL-level `determinebranch` (eazysvn.py lines 234-259), starting from
the URL the source extracts from `svn info` output: split on `/`, run the
rewriting loop, join with `/`. -/
def determinebranchURL (branch url : String) : Option String :=
  (determinebranchSegs branch (pySplit url '/')).map
    (fun segs => String.intercalate "/" segs)

/-- The segment-rewriting loop of `determinetag` (eazysvn.py lines
307-321), analogous to `determinebranchLoop`: pivots are replaced by a
`tags`/`tag` marker (matching the plural/singular form of the old
marker) followed by the tag name. -/
def determinetagLoop (tagname : String) : List String → Option (List String)
  | [] => some []
  | ch :: rest =>
    if ch = "branches" || ch = "tags" then
      match rest with
      | [] => none
      | _oldname :: rest2 =>
        (determinetagLoop tagname rest2).map (fun out => "tags" :: tagname :: out)
    else if ch = "branch" || ch = "tag" then
      match rest with
      | [] => none
      | _oldname :: rest2 =>
        (determinetagLoop tagname rest2).map (fun out => "tag" :: tagname :: out)
    else if ch = "trunk" then
      (determinetagLoop tagname rest).map (fun out => "tags" :: tagname :: out)
    else
      (determinetagLoop tagname rest).map (fun out => ch :: out)

/-- URL-level `determinetag` (eazysvn.py lines 262-323). -/
def determinetagURL (tagname url : String) : Option String :=
  (determinetagLoop tagname (pySplit url '/')).map
    (fun segs => String.intercalate "/" segs)

/-- Success predicate for the rewriting loops: every pivot segment is
followed by at least one further segment, so the inner `chunks.pop()`
never hits an empty list. -/
def marksOk : List String → Bool
  | [] => true
  | ch :: rest =>
    if isMarker ch then
      match rest with
      | [] => false
      | _ :: rest2 => marksOk rest2
    else marksOk rest

example : determinebranchURL "foobar" "http://d.c/svn/bla/trunk/blergh"
    = some "http://d.c/svn/bla/branches/foobar/blergh" := rfl
example : determinebranchURL "trunk" "http://d.c/svn/bla/trunk/blergh"
    = some "http://d.c/svn/bla/trunk/blergh" := rfl
example : determinebranchURL "trunk" "http://d.c/svn/bla/branches/foobar/blergh"
    = some "http://d.c/svn/bla/trunk/blergh" := rfl
example : determinebranchURL "tag/3.4" "http://d.c/svn/bla/branches/foobar/blergh"
    = some "http://d.c/svn/bla/tag/3.4/blergh" := rfl
example : determinebranchURL "mybranch" "http://d.c/svn/bla/tags/foobar"
    = some "http://d.c/svn/bla/branches/mybranch" := rfl
example : determinetagURL "foobar" "http://d.c/svn/bla/trunk/blergh"
    = some "http://d.c/svn/bla/tags/foobar/blergh" := rfl
example : determinetagURL "foobaz" "http://d.c/svn/bla/branches/foobar/blergh"
    = some "http://d.c/svn/bla/tags/foobaz/blergh" := rfl
example : determinebranchURL "foo" "http://x/branches" = none := rfl

/-- Embedding of `branchpoints` (eazysvn.py lines 463-471) after the XML
parse: `entries` is the list of `logentry` revision attributes of the
parsed `svn log --stop-on-copy --xml` output, in document order (newest
first, as svn prints them).  The source takes `entries[0]` as the newest
and `entries[-1]` as the oldest and returns `(oldest, newest)`; indexing
an empty list raises `IndexError`, modelled as `none`. -/
def branchpoints (entries : List Int) : Option (Int × Int) :=
  match entries.head?, entries.getLast? with
  | some newest, some oldest => some (oldest, newest)
  | _, _ => none

example : branchpoints [4515, 4504] = some (4504, 4515) := rfl
example : branchpoints [7] = some (7, 7) := rfl
example : branchpoints [] = none := rfl

/-- The external Subversion state observed by the program: `infoLines`
gives `svninfo(path).splitlines()` for a working-copy path, and
`logEntries` gives the `logentry` revision numbers of the parsed
`svnlog(url)` XML, newest first. -/
structure SvnWorld where
  infoLines : String → List String
  logEntries : String → List Int

/-- Embedding of `currentbranch` (eazysvn.py lines 151-156): take line 1
of the `svn info` output if it starts with `URL: `, else line 2, and drop
the five-character `URL: ` prefix from it.  Indexing past the end of the
line list raises `IndexError`, modelled as `none`.  `determinebranch`
and `determinetag` open with the same five lines of URL extraction. -/
def currentbranch (w : SvnWorld) (path : String) : Option String :=
  match (w.infoLines path).get? 1 with
  | none => none
  | some l1 =>
    if pyStartsWithStr l1 "URL: " then some (l1.drop 5)
    else
      match (w.infoLines path).get? 2 with
      | none => none
      | some l2 => some (l2.drop 5)

/-- `determinebranch` as called by the sub-commands: extract the URL of
the working copy at `path` from `svn info` output, then rewrite it. -/
def determinebranchW (w : SvnWorld) (branch path : String) : Option String :=
  match currentbranch w path with
  | none => none
  | some url => determinebranchURL branch url

/-- `determinetag` as called by the sub-commands. -/
def determinetagW (w : SvnWorld) (tagname path : String) : Option String :=
  match currentbranch w path with
  | none => none
  | some url => determinetagURL tagname url

/-- How an invocation of a sub-command ends: normal return, `sys.exit`
with a message, or an uncaught Python exception. -/
inductive Outcome where
  | ok
  | exited (msg : String)
  | raised (msg : String)
deriving DecidableEq, Repr

/-- The observable effect of a sub-command: the external commands passed
to `os.system`, in order, and how the invocation ended. -/
structure RunResult where
  cmds : List String
  outcome : Outcome
deriving DecidableEq, Repr

/-- The option flags of the `merge` sub-command that reach its command
construction (list mode is handled before this slice and is omitted). -/
structure MergeOpts where
  reintegrate : Bool
  accept : Option String
  diff : Bool
  tag : Bool
  dryRun : Bool

/-- The revision-range stage of the `merge` sub-command (eazysvn.py
lines 560-573): on token `ALL` the range comes from `branchpoints` of
the resolved source URL, except that for source branch name `trunk`
the begin revision is replaced by the current branch's own branch point
(lines 562-565); otherwise the range comes from `revs`.  `none` results
of the helpers (`IndexError` crashes) and the `ValueError` of `revs`
are surfaced as raised exceptions. -/
def ezmergeRange (w : SvnWorld) (path branch branchname rev : String) :
    Except Outcome (Int × PyVal) :=
  if rev = "ALL" then
    match branchpoints (w.logEntries branch) with
    | none => Except.error (Outcome.raised "IndexError")
    | some (beginrev, endrev) =>
      if branchname = "trunk" then
        -- Special case (lines 562-565): when merging from trunk, take
        -- the begin revision from the current branch's own branch
        -- point, not from trunk's oldest history.
        match currentbranch w path with
        | none => Except.error (Outcome.raised "IndexError")
        | some cur =>
          match branchpoints (w.logEntries cur) with
          | none => Except.error (Outcome.raised "IndexError")
          | some (beginrev2, _ignored) =>
            Except.ok (beginrev2, PyVal.int endrev)
      else Except.ok (beginrev, PyVal.int endrev)
  else
    match revs rev with
    | Except.error e => Except.error (Outcome.raised e)
    | Except.ok be => Except.ok be

/-- The command-construction tail of the `merge` sub-command (eazysvn.py
lines 574-600): build the merge (or diff) command and the log command,
run the log command, and run the merge command unless dry-run. -/
def ezmergeCmds (opts : MergeOpts) (branch path : String)
    (beginrev : Int) (endrev : PyVal) : RunResult :=
  let merge_cmd :=
    if opts.diff then
      "svn diff -r " ++ toString beginrev ++ ":" ++ pyStr endrev ++ " " ++ branch
    else
      String.intercalate " "
        (["svn", "merge"]
          ++ (if opts.reintegrate then ["--reintegrate"]
              else ["-r " ++ toString beginrev ++ ":" ++ pyStr endrev])
          ++ (match opts.accept with
              | some a => ["--accept", a]
              | none => [])
          ++ [branch, path])
  let log_cmd :=
    "svn log -r " ++ toString (beginrev + 1) ++ ":" ++ pyStr endrev ++ " " ++ branch
  ⟨[log_cmd] ++ (if opts.dryRun then [] else [merge_cmd]), Outcome.ok⟩

/-- The body of the `merge` sub-command (eazysvn.py lines 551-600) once
the revision token, source branch name and working-copy path have been
extracted from the positional arguments: resolve the source URL, adjust
the display name, compute the revision range and build and run the
commands. -/
def ezmergeMain (w : SvnWorld) (opts : MergeOpts)
    (rev branchname0 path : String) : RunResult :=
  match (if opts.tag then determinetagW w branchname0 path
         else determinebranchW w branchname0 path) with
  | none => ⟨[], Outcome.raised "IndexError"⟩
  | some branch =>
    let branchname :=
      if branchname0 ≠ "trunk" && !(pyEndsWith branchname0 "branch") then
        branchname0 ++ (if opts.tag then " tag" else " branch")
      else branchname0
    match ezmergeRange w path branch branchname rev with
    | Except.error out => ⟨[], out⟩
    | Except.ok (beginrev, endrev) =>
      ezmergeCmds opts branch path beginrev endrev

/-- Embedding of the `merge` sub-command core (`ezmerge`, eazysvn.py
lines 523-600) after option parsing: `args` are the positional
arguments.  With one argument the revision defaults to `"ALL"`; the
revision token is otherwise `args[0]` and the branch name follows; the
working-copy path defaults to `"."`.  The `os.system` calls are the log
command and, unless dry-run, the merge (or diff) command. -/
def ezmerge (w : SvnWorld) (opts : MergeOpts) (args : List String) : RunResult :=
  match args with
  | [] => ⟨[], Outcome.exited "too few arguments"⟩
  | [b] => ezmergeMain w opts "ALL" b "."
  | r :: b :: rest =>
    if rest.length > 1 then ⟨[], Outcome.exited "too many arguments"⟩
    else ezmergeMain w opts r b (rest.headD ".")

/-- Embedding of the `revert` sub-command (`ezrevert`, eazysvn.py lines
613-643) after option parsing: `args` are the positional arguments
(revision token, optional working-copy path).  On the token `"ALL"` the
source calls `sys.exit` on line 628, before any `os.system` call; the
merge command reverse-applies the range (`endrev:beginrev`). -/
def ezrevert (dryRun : Bool) (args : List String) : RunResult :=
  match args with
  | [] => ⟨[], Outcome.exited "too few arguments"⟩
  | rev :: restArgs =>
    if restArgs.length > 1 then ⟨[], Outcome.exited "too many arguments"⟩
    else
      let path := match restArgs with | [] => "." | p :: _ => p
      if rev = "ALL" then
        ⟨[], Outcome.exited "I refuse to revert all checkins in a branch"⟩
      else
        match revs rev with
        | Except.error e => ⟨[], Outcome.raised e⟩
        | Except.ok (beginrev, endrev) =>
          let merge_cmd :=
            "svn merge -r " ++ pyStr endrev ++ ":" ++ toString beginrev ++ " " ++ path
          let log_cmd :=
            "svn log -r " ++ toString (beginrev + 1) ++ ":" ++ pyStr endrev ++ " " ++ path
          ⟨[log_cmd] ++ (if dryRun then [] else [merge_cmd]), Outcome.ok⟩

/-- C1, counterexample: the claim says a hyphen range `a-b` with
`a >= b` raises `InvalidRangeError`, but the token `5-5` (where
`a = b = 5`) is accepted by `revs` and yields `(4, 5)`: the raise
condition on line 81 is `a - 1 >= b`, which at `a = b` is false. -/
theorem revs_five_dash_five_accepted : revs "5-5" = Except.ok (4, PyVal.int 5) := rfl

/-- C1 (amended): for every hyphen-range token `a-b` with integers `a`
and `b`, `revs` returns `(a-1, b)` when `a < b` and also when `a = b`;
it raises the `ValueError` (`InvalidRangeError`) exactly when `a > b`.
When `b` is the literal `HEAD` it never raises and returns
`(a-1, "HEAD")`. -/
theorem revs_hyphen_range_c1 (rev s1 s2 : String)
    (h0 : pyStartsWith rev 'r' = false)
    (h1 : pyContains rev '-' = true)
    (h2 : pySplit rev '-' = [s1, s2]) :
    (∀ a b : Int, pyInt? s1 = some a → pyInt? s2 = some b →
      (a < b → revs rev = Except.ok (a - 1, PyVal.int b)) ∧
      (a = b → revs rev = Except.ok (a - 1, PyVal.int b)) ∧
      (b < a → revs rev =
        Except.error ("empty range (" ++ toString a ++ "-" ++ toString b ++ ")"))) ∧
    (s2 = "HEAD" → ∀ a : Int, pyInt? s1 = some a →
      revs rev = Except.ok (a - 1, PyVal.str "HEAD")) := by
  constructor
  · intro a b ha hb
    have hne : s2 ≠ "HEAD" := by
      intro h
      rw [h] at hb
      have hnone : pyInt? "HEAD" = none := rfl
      rw [hnone] at hb
      cases hb
    have hA : a - 1 + 1 = a := by omega
    refine ⟨fun hab => ?_, fun hab => ?_, fun hab => ?_⟩
    · have hc : ¬ (b ≤ a - 1) := by omega
      simp [revs, h0, h1, h2, ha, hb, hne, pyIntGe, hc]
    · have hc : ¬ (b ≤ a - 1) := by omega
      simp [revs, h0, h1, h2, ha, hb, hne, pyIntGe, hc]
    · have hc : b ≤ a - 1 := by omega
      simp [revs, h0, h1, h2, ha, hb, hne, pyIntGe, hc, pyStr, hA]
  · intro hHead a ha
    simp [revs, h0, h1, h2, ha, hHead, pyIntGe]

/-- C1 witness at a concrete input. -/
theorem revs_hyphen_range_c1_witness : revs "4-9" = Except.ok (3, PyVal.int 9) :=
  ((revs_hyphen_range_c1 "4-9" "4" "9" rfl rfl rfl).1 4 9 rfl rfl).1 (by decide)

/-- C3: for every hyphen-range token `start-end`, `revs` computes
`begin = start - 1`, parses the end as an integer unless it is literally
`HEAD`, and raises the `ValueError` exactly when `begin >= end` (never
for a `HEAD` end); otherwise it returns `(start-1, end)`.  The token
`a-a` falls under `begin < end` and is accepted, yielding `(a-1, a)`. -/
theorem revs_hyphen_begin_c3 (rev s1 s2 : String)
    (h0 : pyStartsWith rev 'r' = false)
    (h1 : pyContains rev '-' = true)
    (h2 : pySplit rev '-' = [s1, s2]) :
    (∀ a b : Int, pyInt? s1 = some a → pyInt? s2 = some b →
      (a - 1 ≥ b → revs rev =
        Except.error ("empty range (" ++ toString a ++ "-" ++ toString b ++ ")")) ∧
      (a - 1 < b → revs rev = Except.ok (a - 1, PyVal.int b))) ∧
    (s2 = "HEAD" → ∀ a : Int, pyInt? s1 = some a →
      revs rev = Except.ok (a - 1, PyVal.str "HEAD")) := by
  constructor
  · intro a b ha hb
    have hne : s2 ≠ "HEAD" := by
      intro h
      rw [h] at hb
      have hnone : pyInt? "HEAD" = none := rfl
      rw [hnone] at hb
      cases hb
    have hA : a - 1 + 1 = a := by omega
    refine ⟨fun hab => ?_, fun hab => ?_⟩
    · have hc : b ≤ a - 1 := by omega
      simp [revs, h0, h1, h2, ha, hb, hne, pyIntGe, hc, pyStr, hA]
    · have hc : ¬ (b ≤ a - 1) := by omega
      simp [revs, h0, h1, h2, ha, hb, hne, pyIntGe, hc]
  · intro hHead a ha
    simp [revs, h0, h1, h2, ha, hHead, pyIntGe]

/-- C3 witness at a concrete input: the one-revision range `7-7`. -/
theorem revs_hyphen_begin_c3_witness : revs "7-7" = Except.ok (6, PyVal.int 7) :=
  ((revs_hyphen_begin_c3 "7-7" "7" "7" rfl rfl rfl).1 7 7 rfl rfl).2 (by decide)

/-- C8: for every bare-number token (no `-` and no `:` after stripping an
optional leading `r`) whose integer value is `n`, `revs` returns
`(n - 1, t)` where `t` is the stripped token itself (the Python code
keeps the end of the range as the original string, whose value is `n`). -/
theorem revs_bare_number_c8 (rev stripped : String) (n : Int)
    (h0 : stripped = (if pyStartsWith rev 'r' then rev.drop 1 else rev))
    (h1 : pyContains stripped '-' = false)
    (h2 : pyContains stripped ':' = false)
    (h3 : pyInt? stripped = some n) :
    revs rev = Except.ok (n - 1, PyVal.str stripped) := by
  rw [revs, ← h0]
  simp [h1, h2, h3]

/-- C8 witness at concrete inputs, with and without the `r` prefix. -/
theorem revs_bare_number_c8_witness :
    revs "r43" = Except.ok (42, PyVal.str "43") :=
  revs_bare_number_c8 "r43" "43" 43 rfl rfl rfl rfl

/-- C9: for every colon-range token `a:b`, including `b < a` (a
reverse/undo range), `revs` returns `(a, b)` with the start not
decremented; the end is parsed as an integer unless it is literally
`HEAD`, and no error is raised for any ordering of `a` and `b`. -/
theorem revs_colon_range_c9 (rev s1 s2 : String)
    (h0 : pyStartsWith rev 'r' = false)
    (h1 : pyContains rev '-' = false)
    (h2 : pyContains rev ':' = true)
    (h3 : pySplit rev ':' = [s1, s2]) :
    (∀ a b : Int, pyInt? s1 = some a → pyInt? s2 = some b →
      revs rev = Except.ok (a, PyVal.int b)) ∧
    (∀ a : Int, pyInt? s1 = some a → s2 = "HEAD" →
      revs rev = Except.ok (a, PyVal.str "HEAD")) := by
  constructor
  · intro a b ha hb
    have hne : s2 ≠ "HEAD" := by
      intro h
      rw [h] at hb
      have hnone : pyInt? "HEAD" = none := rfl
      rw [hnone] at hb
      cases hb
    simp [revs, h0, h1, h2, h3, ha, hb, hne]
  · intro a ha hHead
    simp [revs, h0, h1, h2, h3, ha, hHead]

/-- C9 witness at a concrete input: the reverse range `42:41`. -/
theorem revs_colon_range_c9_witness : revs "42:41" = Except.ok (42, PyVal.int 41) :=
  (revs_colon_range_c9 "42:41" "42" "41" rfl rfl rfl rfl).1 42 41 rfl rfl

/-- C6: the standard single-pivot rewrites of `determinebranch`:
trunk to branch, branch back to trunk, and trunk-to-trunk unchanged. -/
theorem determinebranch_pivot_rewrites_c6 :
    determinebranchURL "foo" "http://x/trunk/sub" = some "http://x/branches/foo/sub" ∧
    determinebranchURL "trunk" "http://x/branches/foo/sub" = some "http://x/trunk/sub" ∧
    determinebranchURL "trunk" "http://x/trunk/sub" = some "http://x/trunk/sub" :=
  ⟨rfl, rfl, rfl⟩

/-- C2, counterexample: the claim says `determinebranch` never fails,
even on a URL whose final segment is a marker; but on
`http://x/branches` the scan meets the marker `branches` with no segment
after it, and the second `chunks.pop()` on line 242 raises `IndexError`
(modelled as `none`). -/
theorem determinebranch_trailing_marker_fails :
    determinebranchURL "foo" "http://x/branches" = none := rfl

/-- Unfolding of the rewriting loop on a non-marker head segment. -/
theorem determinebranchLoop_cons_plain (branch : String) (t : Bool) (ch : String)
    (rest : List String) (hm : isMarker ch = false) :
    determinebranchLoop branch t (ch :: rest) =
      if ch = "trunk" && branch != "trunk" then
        (determinebranchLoop branch t rest).map (fun out =>
          if t then branch :: out else "branches" :: branch :: out)
      else
        (determinebranchLoop branch t rest).map (fun out => ch :: out) := by
  cases rest <;> simp [determinebranchLoop, hm]

/-- Unfolding of `marksOk` on a non-marker head segment. -/
theorem marksOk_cons_plain (ch : String) (rest : List String)
    (hm : isMarker ch = false) : marksOk (ch :: rest) = marksOk rest := by
  cases rest <;> simp [marksOk, hm]

/-- Auxiliary for C2: the rewriting loop succeeds exactly when every
marker segment it consumes is followed by at least one more segment. -/
theorem determinebranchLoop_isSome (branch : String) (t : Bool) (l : List String) :
    (determinebranchLoop branch t l).isSome = marksOk l := by
  induction l using determinebranchLoop.induct branch t with
  | case1 => rfl
  | case2 ch hm => simp [determinebranchLoop, marksOk, hm]
  | case3 ch hm old rest2 ih => simp [determinebranchLoop, marksOk, hm, ih]
  | case4 old rest2 hm hc ih =>
    have hm2 : isMarker old = false := by simpa using hm
    rw [determinebranchLoop_cons_plain branch t old rest2 hm2,
      marksOk_cons_plain old rest2 hm2]
    split <;> simp [Option.isSome_map', ih]
  | case5 ch rest2 hm hc ih =>
    have hm2 : isMarker ch = false := by simpa using hm
    rw [determinebranchLoop_cons_plain branch t ch rest2 hm2,
      marksOk_cons_plain ch rest2 hm2]
    split <;> simp [Option.isSome_map', ih]

/-- C2 (amended): `determinebranch` is a pure function of the segment
sequence that passes segments of unrecognized layouts through unchanged,
and it returns a URL for exactly those URLs in which every marker
segment (`branch`/`branches`/`tag`/`tags`) met by the scan is followed
by a further segment; when a marker is the last remaining segment - in
particular when the URL ends in a marker - the inner `chunks.pop()`
raises `IndexError` instead of returning. -/
theorem determinebranch_total_iff_marks_c2 (branch url : String) :
    (determinebranchURL branch url).isSome = marksOk (pySplit url '/') := by
  simp [determinebranchURL, determinebranchSegs, determinebranchLoop_isSome]

/-- Auxiliary list fact: the last element of a nonempty list. -/
theorem getLast?_cons_eq_getLastD {α : Type} (a : α) (l : List α) :
    (a :: l).getLast? = some (l.getLastD a) := by
  induction l generalizing a with
  | nil => rfl
  | cons b t ih => rw [List.getLast?_cons_cons, ih, List.getLastD_cons]

/-- C10: `branchpoints` on a parsed log with at least one entry returns
the pair (revision of the last-listed entry, revision of the
first-listed entry); on a single-entry log `[r]` the two indices
coincide and it returns `(r, r)` without failing. -/
theorem branchpoints_first_last_c10 (newest : Int) (rest : List Int) :
    branchpoints (newest :: rest) = some (rest.getLastD newest, newest) := by
  simp [branchpoints, getLast?_cons_eq_getLastD]

/-- C7: the `revert` sub-command with revision token `ALL` and a valid
argument count exits via `sys.exit` with the refusal message before any
`os.system` call: the command trace is empty, so neither the log command
nor the merge command is run, for any dry-run setting. -/
theorem ezrevert_all_refused_c7 (rest : List String) (dryRun : Bool)
    (hlen : rest.length ≤ 1) :
    ezrevert dryRun ("ALL" :: rest) =
      ⟨[], Outcome.exited "I refuse to revert all checkins in a branch"⟩ := by
  have hgt : ¬ (rest.length > 1) := by omega
  simp [ezrevert, hgt]

/-- C7 witness at a concrete input. -/
theorem ezrevert_all_refused_c7_witness :
    ezrevert false ["ALL"] =
      ⟨[], Outcome.exited "I refuse to revert all checkins in a branch"⟩ :=
  ezrevert_all_refused_c7 [] false (by decide)

/-- Auxiliary for C4: segments that are neither markers nor `trunk` pass
through the head of the rewriting loop unchanged. -/
theorem determinebranchLoop_append_plain (branch : String) (t : Bool)
    (pre l : List String)
    (h : ∀ s ∈ pre, isMarker s = false ∧ s ≠ "trunk") :
    determinebranchLoop branch t (pre ++ l) =
      (determinebranchLoop branch t l).map (fun out => pre ++ out) := by
  induction pre with
  | nil => simp
  | cons a pre ih =>
    obtain ⟨hma, hta⟩ := h a (by simp)
    have hrec := ih (fun s hs => h s (by simp [hs]))
    rw [List.cons_append, determinebranchLoop_cons_plain branch t a (pre ++ l) hma]
    have hcond : (a = "trunk" && branch != "trunk") = false := by simp [hta]
    rw [hcond]
    simp only [Bool.false_eq_true, if_false, hrec, Option.map_map]
    rfl

/-- Auxiliary for C4: a segment list without markers and without `trunk`
is returned unchanged by the rewriting loop. -/
theorem determinebranchLoop_plain_id (branch : String) (t : Bool) (l : List String)
    (h : ∀ s ∈ l, isMarker s = false ∧ s ≠ "trunk") :
    determinebranchLoop branch t l = some l := by
  have happ := determinebranchLoop_append_plain branch t l [] h
  simpa [determinebranchLoop] using happ

/-- C4: round-trip on a trunk URL.  For any segment sequence
`pre ++ [trunk] ++ post` whose other segments are neither markers nor
`trunk`, resolving branch `foo` rewrites the pivot to
`branches/foo`, and resolving `trunk` on the result restores the
original sequence exactly (so in particular modulo the
branch/trunk marker segment). -/
theorem determinebranch_roundtrip_c4 (pre post : List String)
    (hpre : ∀ s ∈ pre, isMarker s = false ∧ s ≠ "trunk")
    (hpost : ∀ s ∈ post, isMarker s = false ∧ s ≠ "trunk") :
    determinebranchSegs "foo" (pre ++ "trunk" :: post)
        = some (pre ++ "branches" :: "foo" :: post) ∧
    determinebranchSegs "trunk" (pre ++ "branches" :: "foo" :: post)
        = some (pre ++ "trunk" :: post) := by
  constructor
  · show determinebranchLoop "foo" (pyContains "foo" '/') (pre ++ "trunk" :: post)
        = some (pre ++ "branches" :: "foo" :: post)
    have hTag : pyContains "foo" '/' = false := rfl
    rw [hTag, determinebranchLoop_append_plain "foo" false pre ("trunk" :: post) hpre,
      determinebranchLoop_cons_plain "foo" false "trunk" post rfl]
    simp [determinebranchLoop_plain_id "foo" false post hpost]
  · show determinebranchLoop "trunk" (pyContains "trunk" '/')
          (pre ++ "branches" :: "foo" :: post)
        = some (pre ++ "trunk" :: post)
    have hTag : pyContains "trunk" '/' = false := rfl
    rw [hTag, determinebranchLoop_append_plain "trunk" false pre
      ("branches" :: "foo" :: post) hpre]
    have hb : isMarker "branches" = true := rfl
    simp [determinebranchLoop, hb, determinebranchLoop_plain_id "trunk" false post hpost]

/-- C4 witness at a concrete trunk URL (segments of `http://x/trunk/sub`). -/
theorem determinebranch_roundtrip_c4_witness :
    determinebranchSegs "foo" (["http:", "", "x"] ++ "trunk" :: ["sub"])
        = some (["http:", "", "x"] ++ "branches" :: "foo" :: ["sub"]) ∧
    determinebranchSegs "trunk" (["http:", "", "x"] ++ "branches" :: "foo" :: ["sub"])
        = some (["http:", "", "x"] ++ "trunk" :: ["sub"]) :=
  determinebranch_roundtrip_c4 ["http:", "", "x"] ["sub"] (by decide) (by decide)

/-- C5: in the merge sub-command with revision token `ALL` and source
branch name `trunk` (no flags set), the begin revision of the
constructed log and merge commands is the oldest stop-on-copy log entry
of the current working copy's own branch (`currentbranch(path)`) - not
trunk's own oldest recorded entry - while the end revision is the newest
log entry of the resolved trunk URL. -/
theorem ezmerge_all_trunk_c5 (w : SvnWorld) (path cur trunkUrl : String)
    (tnew cnew : Int) (trest crest : List Int)
    (hcur : currentbranch w path = some cur)
    (htrunk : determinebranchURL "trunk" cur = some trunkUrl)
    (hlogT : w.logEntries trunkUrl = tnew :: trest)
    (hlogC : w.logEntries cur = cnew :: crest) :
    ezmerge w ⟨false, none, false, false, false⟩ ["ALL", "trunk", path] =
      ⟨["svn log -r " ++ toString (crest.getLastD cnew + 1) ++ ":" ++ toString tnew
          ++ " " ++ trunkUrl,
        String.intercalate " "
          ["svn", "merge",
           "-r " ++ toString (crest.getLastD cnew) ++ ":" ++ toString tnew,
           trunkUrl, path]],
       Outcome.ok⟩ := by
  simp [ezmerge, ezmergeMain, ezmergeRange, ezmergeCmds, determinebranchW,
    hcur, htrunk, hlogT, hlogC, branchpoints, getLast?_cons_eq_getLastD,
    pyStr, pyEndsWith]

/-- A concrete Subversion world for the C5 witness: the working copy at
`.` sits on branch `feat`, whose stop-on-copy log is revisions 9 and 8,
while trunk's log is revisions 10, 7 and 5. -/
def c5World : SvnWorld where
  infoLines := fun p =>
    if p = "." then ["Path: .", "URL: http://x/branches/feat/sub"] else []
  logEntries := fun u =>
    if u = "http://x/trunk/sub" then [10, 7, 5]
    else if u = "http://x/branches/feat/sub" then [9, 8] else []

/-- C5 witness at a concrete world: the merge picks begin revision 8
(the branch point of `feat`), not 5 (trunk's own oldest entry). -/
theorem ezmerge_all_trunk_c5_witness :
    ezmerge c5World ⟨false, none, false, false, false⟩ ["ALL", "trunk", "."] =
      ⟨["svn log -r 9:10 http://x/trunk/sub",
        "svn merge -r 8:10 http://x/trunk/sub ."],
       Outcome.ok⟩ := by
  rw [ezmerge_all_trunk_c5 c5World "." "http://x/branches/feat/sub"
    "http://x/trunk/sub" 10 9 [7, 5] [8] rfl rfl rfl rfl]
  rfl

end Eazysvn
